import Mathlib

/-!
Verification development for the Gold Analysis Platform frontend.

The repository ships a React frontend (under src/app/frontend and the unnamed
source parts) that talks to a Python trading backend over REST.  The files
below shallowly embed the frontend logic that the checked properties are
about: the SignalDisplay component, the PriceChart component, the Trading
page trade submission, the ZerodhaAuth callback handler, the Predictions
page accuracy block, and the timeframe literals every page can emit.  The
backend components that are not part of the source tree (the signal fusion
engine and the timeframe validation of the REST layer) are modelled from the
specification and marked as such in their doc comments.

JavaScript values are embedded as the inductive `JSValue`; numbers are
modelled as rationals, objects as ordered association lists.
-/

/-- A JavaScript value, as far as the frontend components inspect one:
null, undefined, booleans, numbers (modelled as rationals), strings, and
plain objects (ordered field lists, first binding wins on lookup). -/
inductive JSValue where
  | vNull
  | vUndefined
  | vBool (b : Bool)
  | vNum (q : ℚ)
  | vStr (s : String)
  | vObj (fields : List (String × JSValue))
  deriving Repr

/-- JavaScript truthiness of a value.  NaN is not modelled; objects are
always truthy, the empty string and zero are falsy. -/
def jsTruthy : JSValue → Bool
  | .vNull => false
  | .vUndefined => false
  | .vBool b => b
  | .vNum q => q != 0
  | .vStr s => s != ""
  | .vObj _ => true

/-- Whether `typeof v` evaluates to the string "object".  True for null, a
well-known JavaScript quirk. -/
def typeofIsObject : JSValue → Bool
  | .vNull => true
  | .vObj _ => true
  | _ => false

/-- Property access `v.k` as the components use it: the field value on an
object carrying the key, undefined otherwise. -/
def getField (v : JSValue) (k : String) : JSValue :=
  match v with
  | .vObj fs => (fs.lookup k).getD .vUndefined
  | _ => .vUndefined

/-- `Object.keys` of a value, for the object values the components reach it
on (the guard in SignalDisplay only evaluates it after the typeof check). -/
def objKeys : JSValue → List String
  | .vObj fs => fs.map Prod.fst
  | _ => []

/-- Whether the value is an actual object (null and undefined are not). -/
def isObjectValue : JSValue → Bool
  | .vObj _ => true
  | _ => false

/-- JavaScript logical or: the left operand if truthy, else the right. -/
def jsOr (a b : JSValue) : JSValue := if jsTruthy a then a else b

/-- JavaScript strict equality of a value against a string literal, as in
`action === 'BUY'`: true exactly for that string value. -/
def jsIsStr (v : JSValue) (s : String) : Bool :=
  match v with
  | .vStr t => t == s
  | _ => false

/-! SignalDisplay (components/SignalDisplay.js, unnamed part) -/

/-- The validity guard of SignalDisplay: the component renders the
"No signal data available" fallback exactly when this is false.  Embeds
`signal && typeof signal === 'object' && !signal.error &&
Object.keys(signal).length > 0`. -/
def hasValidData (signal : JSValue) : Bool :=
  jsTruthy signal && typeofIsObject signal &&
    !jsTruthy (getField signal "error") &&
    decide (0 < (objKeys signal).length)

/-- The CSS class chosen for the action text in SignalDisplay
(`getSignalClass`): hold styling for any falsy action, buy/sell styling
exactly on the strings BUY and SELL, hold styling otherwise. -/
def getSignalClass (action : JSValue) : String :=
  if !jsTruthy action then "hold-signal"
  else if jsIsStr action "BUY" then "buy-signal"
  else if jsIsStr action "SELL" then "sell-signal"
  else "hold-signal"

/-- The indicator dot colour class in SignalDisplay (`getSignalIndicator`). -/
def getSignalIndicator (action : JSValue) : String :=
  if !jsTruthy action then "hold"
  else if jsIsStr action "BUY" then "buy"
  else if jsIsStr action "SELL" then "sell"
  else "hold"

/-- The claim as stated for the no-data fallback: rendered exactly when the
input is null or undefined, not an object, carries an error field, or has no
keys.  Field presence is key membership, as the claim words it. -/
def claimNoDataFallback : Prop :=
  ∀ v : JSValue,
    hasValidData v = false ↔
      ((v = .vNull ∨ v = .vUndefined) ∨ isObjectValue v = false ∨
        (objKeys v).contains "error" = true ∨ objKeys v = [])

/-! Trading page (pages/Trading.js) -/

/-- The trade form state of the Trading page.  The quantity is kept as the
integer `parseInt` produces from the form input; stop loss and take profit
start out as null (`none`). -/
structure TradeForm where
  timeframe : String
  quantity : ℤ
  orderType : String
  stopLoss : Option ℚ
  takeProfit : Option ℚ
  useSignalLevels : Bool
  deriving Repr, DecidableEq

/-- The two risk fields of the signal object the Trading page holds in
state; `none` models a null or absent field. -/
structure SignalLevels where
  stop_loss : Option ℚ
  take_profit : Option ℚ
  deriving Repr, DecidableEq

/-- A nullable number rendered back into a JavaScript value. -/
def optNumJS : Option ℚ → JSValue
  | some q => .vNum q
  | none => .vNull

/-- JavaScript truthiness of a nullable number: null, undefined and zero
are falsy. -/
def jsTruthyOptNum : Option ℚ → Bool
  | some q => q != 0
  | none => false

/-- The `tradeData` request body built by `handleExecuteTrade` in
pages/Trading.js, as the ordered field list of the object literal.  The
risk fields embed the conditionals
`tradeForm.useSignalLevels && signal.stop_loss ? signal.stop_loss :
tradeForm.stopLoss` and the analogue for take profit. -/
def tradeData (form : TradeForm) (signal : SignalLevels) (action : String) :
    List (String × JSValue) :=
  [("action", .vStr action),
   ("timeframe", .vStr form.timeframe),
   ("quantity", .vNum (form.quantity : ℚ)),
   ("order_type", .vStr form.orderType),
   ("stop_loss",
     if form.useSignalLevels && jsTruthyOptNum signal.stop_loss
     then optNumJS signal.stop_loss else optNumJS form.stopLoss),
   ("take_profit",
     if form.useSignalLevels && jsTruthyOptNum signal.take_profit
     then optNumJS signal.take_profit else optNumJS form.takeProfit)]

/-- Observable outcome of one `handleExecuteTrade` invocation: the payload
sent to `api.placeTradeFromSignal` when the call was issued (`none` when it
never was), and the error and success banners left in state. -/
structure ExecOutcome where
  tradeCall : Option (List (String × JSValue))
  error : Option String
  success : Option String
  deriving Repr

/-- `handleExecuteTrade` of pages/Trading.js.  When the Zerodha status is
not logged in it sets the error banner and returns without calling the API;
otherwise it posts `tradeData` via `api.placeTradeFromSignal`.  `apiResult`
is the order id the backend answers with, or `none` when the request
throws; in both of those cases the brokerage call was issued. -/
def handleExecuteTrade (isLoggedIn : Bool) (form : TradeForm)
    (signal : SignalLevels) (action : String) (apiResult : Option String) :
    ExecOutcome :=
  if !isLoggedIn then
    ⟨none, some "You must log in to Zerodha to execute trades.", none⟩
  else
    match apiResult with
    | some orderId =>
        ⟨some (tradeData form signal action), none,
         some ("Trade executed successfully! Order ID: " ++ orderId)⟩
    | none =>
        ⟨some (tradeData form signal action),
         some "Failed to execute trade. Please check your inputs and try again.",
         none⟩

/-- The claim as stated for signal levels: with useSignalLevels enabled and
both signal levels non-null, the submitted order carries exactly the
signal levels. -/
def claimSignalLevelsForwarded : Prop :=
  ∀ (form : TradeForm) (signal : SignalLevels) (action : String),
    form.useSignalLevels = true →
    signal.stop_loss ≠ none →
    signal.take_profit ≠ none →
    (tradeData form signal action).lookup "stop_loss" =
        some (optNumJS signal.stop_loss) ∧
      (tradeData form signal action).lookup "take_profit" =
        some (optNumJS signal.take_profit)

/-- The claim as stated for idempotency keying: every submitted trade
request carries a caller-generated client_request_id field. -/
def claimClientRequestIdCarried : Prop :=
  ∀ (form : TradeForm) (signal : SignalLevels) (action : String),
    ((tradeData form signal action).lookup "client_request_id").isSome = true

/-! ZerodhaAuth callback page (unnamed part, `handleAuth`) -/

/-- Observable outcome of the ZerodhaAuth effect: the request token
forwarded to `api.zerodhaCallback` when the exchange was attempted
(`none` when it never was), the error banner, and the success flag. -/
structure AuthOutcome where
  exchangeCall : Option String
  error : Option String
  success : Bool
  deriving Repr, DecidableEq

/-- `handleAuth` of the ZerodhaAuth page.  The request token read from the
callback URL is `none` when the parameter is absent; a present but empty
value is falsy in the `if (!requestToken)` guard, so both fail without an
exchange.  `apiOk` tells whether the `api.zerodhaCallback` request
succeeds (its failure is caught and reported). -/
def handleAuth : Option String → Bool → AuthOutcome
  | none, _ =>
      ⟨none, some "No request token found in the URL. Authentication failed.", false⟩
  | some t, apiOk =>
      if t = "" then
        ⟨none, some "No request token found in the URL. Authentication failed.", false⟩
      else if apiOk then
        ⟨some t, none, true⟩
      else
        ⟨some t, some "Failed to authenticate with Zerodha. Please try again later.", false⟩

/-! Signal fusion (backend component, modelled from the spec) -/

/-- One indicator vote as the fusion rule counts it. -/
inductive Vote where
  | buy
  | sell
  | neutral
  deriving Repr, DecidableEq

/-- Modelled from the spec: the SignalFusionEngine fusion rule.  The engine
itself is backend Python that is not under src/; the spec states "action =
majority vote among non-neutral votes; ties resolve to HOLD". -/
def fuseAction (votes : List Vote) : String :=
  let buys := votes.count .buy
  let sells := votes.count .sell
  if sells < buys then "BUY"
  else if buys < sells then "SELL"
  else "HOLD"

/-! Timeframes -/

/-- The timeframe list of pages/Signals.js
(`const timeframes = ...` with the four literals). -/
def signalsPageTimeframes : List String := ["1h", "4h", "1d", "1w"]

/-- The option values of the timeframe select of the trade form in
pages/Trading.js. -/
def tradingTimeframeOptions : List String := ["1h", "4h", "1d", "1w"]

/-- The arguments the timeframe buttons of the Dashboard, PriceData and
Predictions pages pass to their `handleTimeframeChange`. -/
def timeframeButtonArgs : List String := ["1h", "4h", "1d", "1w"]

/-- The default timeframe of every page state and of the api.js endpoint
defaults. -/
def defaultTimeframe : String := "1h"

/-- Modelled from the spec: the set of timeframes the backend REST layer
recognizes.  The validating backend is not under src/; the spec states
"Recognized timeframes: 1h, 4h, 1d, 1w". -/
def recognizedTimeframes : List String := ["1h", "4h", "1d", "1w"]

/-- Result of the backend timeframe validation. -/
inductive TimeframeCheck where
  | ok (tf : String)
  | invalidTimeframe
  deriving Repr, DecidableEq

/-- Modelled from the spec: backend timeframe validation — "any other value
fails with InvalidTimeframe". -/
def validateTimeframe (tf : String) : TimeframeCheck :=
  if tf ∈ recognizedTimeframes then .ok tf else .invalidTimeframe

/-- Every timeframe literal the client pages can emit towards the API. -/
def clientEmittableTimeframes : List String :=
  signalsPageTimeframes ++ tradingTimeframeOptions ++
    timeframeButtonArgs ++ [defaultTimeframe]

/-! Predictions page accuracy block (pages/Predictions.js) -/

/-- The four metric values the Predictions page stores in its `accuracy`
state. -/
structure AccuracyMetrics where
  mae : ℚ
  mse : ℚ
  rmse : ℚ
  accuracy : ℚ
  deriving Repr, DecidableEq

/-- `Number.prototype.toFixed(2)` on the nonnegative values used here,
kept as a rational (round half up at two decimals). -/
def toFixed2 (q : ℚ) : ℚ := ((⌊q * 100 + 1 / 2⌋ : ℤ) : ℚ) / 100

/-- The accuracy block of `fetchData` in pages/Predictions.js.  When the
fetched predictions array is non-empty, the displayed metrics are computed
from successive `Math.random()` results — `rand` gives those results in
call order (mae, mse, rmse, accuracy) — otherwise the previous state is
kept.  The surrounding comment in the source admits the values are
placeholders ("in a real app, you'd get this from the backend" is its
wording, with an apostrophe). -/
def fetchDataAccuracy (predictionsLen : ℕ) (rand : Fin 4 → ℚ)
    (prev : Option AccuracyMetrics) : Option AccuracyMetrics :=
  if 0 < predictionsLen then
    some ⟨toFixed2 (rand 0 * 10), toFixed2 (rand 1 * 100),
          toFixed2 (rand 2 * 15), toFixed2 (75 + rand 3 * 15)⟩
  else prev

/-! PriceChart component (components/PriceChart.js) -/

/-- One element of the priceData array: a bar object with nullable
timestamp and close (an undefined and a null close behave alike in the
component, both are filtered). -/
structure PriceItem where
  timestamp : Option String
  close : Option ℚ
  deriving Repr, DecidableEq

/-- One element of the predictionData array. -/
structure PredItem where
  timestamp : Option String
  predicted_price : Option ℚ
  deriving Repr, DecidableEq

/-- The timestamp labels PriceChart keeps: items that are truthy and carry
a truthy timestamp are formatted, the rest map to the empty string and are
filtered out.  The moment format call is modelled as the identity on the
stamp; only which items survive and how many matters to the properties
proved here. -/
def priceTimestamps (priceData : List (Option PriceItem)) : List String :=
  (priceData.map fun it =>
      match it with
      | some item =>
          match item.timestamp with
          | some s => if s = "" then "" else s
          | none => ""
      | none => "").filter fun s => s != ""

/-- The close prices PriceChart keeps: defined closes of non-null items,
with null and undefined closes filtered out (the component maps an
undefined close to null first, then filters nulls). -/
def priceCloses (priceData : List (Option PriceItem)) : List ℚ :=
  priceData.filterMap fun it => it.bind PriceItem.close

/-- The prediction timestamp labels, built like `priceTimestamps`. -/
def predTimestamps (predictionData : List (Option PredItem)) : List String :=
  (predictionData.map fun it =>
      match it with
      | some item =>
          match item.timestamp with
          | some s => if s = "" then "" else s
          | none => ""
      | none => "").filter fun s => s != ""

/-- The defined predicted prices, built like `priceCloses`. -/
def predPrices (predictionData : List (Option PredItem)) : List ℚ :=
  predictionData.filterMap fun it => it.bind PredItem.predicted_price

/-- The prediction timestamps the chart body works with: empty unless
showPrediction is set and the predictionData value is a non-empty array
(a null predictionData is falsy and skipped; an empty array is truthy but
fails the inner length check). -/
def chartPredTs (showPrediction : Bool)
    (predictionData : Option (List (Option PredItem))) : List String :=
  if showPrediction then
    match predictionData with
    | some arr => if 0 < arr.length then predTimestamps arr else []
    | none => []
  else []

/-- The predicted prices the chart body works with, guarded like
`chartPredTs`. -/
def chartPredPrices (showPrediction : Bool)
    (predictionData : Option (List (Option PredItem))) : List ℚ :=
  if showPrediction then
    match predictionData with
    | some arr => if 0 < arr.length then predPrices arr else []
    | none => []
  else []

/-- What PriceChart renders: one of the three early-return messages, or a
chart carrying the label array, the actual-price dataset, and the
predicted-price dataset when one is drawn. -/
inductive ChartResult where
  | noValidData
  | noData
  | invalidFormat
  | chart (labels : List String) (actual : List ℚ)
      (predLine : Option (List (Option ℚ)))
  deriving Repr, DecidableEq

/-- The PriceChart component body.  A null priceData input is the
invalid-data early return; an empty array is the no-data return; empty
filtered labels or closes are the invalid-format return.  In the
prediction branch the predicted dataset is a null block as long as the
close prices, then the predicted prices, then null padding up to the label
count (the component pads only when the labels are longer; Nat
subtraction makes the same term cover both cases). -/
def priceChart (priceData : Option (List (Option PriceItem)))
    (showPrediction : Bool)
    (predictionData : Option (List (Option PredItem))) : ChartResult :=
  match priceData with
  | none => .noValidData
  | some pd =>
    if pd.length = 0 then .noData
    else
      let timestamps := priceTimestamps pd
      let closePrices := priceCloses pd
      if timestamps.length = 0 || closePrices.length = 0 then .invalidFormat
      else
        let pts := chartPredTs showPrediction predictionData
        let pps := chartPredPrices showPrediction predictionData
        let allTimestamps := timestamps ++ pts
        if showPrediction && decide (0 < pts.length) &&
            decide (0 < pps.length) then
          let base :=
            List.replicate closePrices.length (none : Option ℚ) ++ pps.map some
          let predictionLine :=
            base ++ List.replicate (allTimestamps.length - base.length) none
          .chart allTimestamps closePrices (some predictionLine)
        else .chart timestamps closePrices none

/-! Theorems -/

/-- C1: when the frontend Zerodha login state is false, `handleExecuteTrade`
never issues the `placeTradeFromSignal` call and sets the explicit
not-authenticated error banner — never a silent no-op. -/
theorem trade_requires_login (form : TradeForm) (signal : SignalLevels)
    (action : String) (apiResult : Option String) :
    (handleExecuteTrade false form signal action apiResult).tradeCall = none ∧
      (handleExecuteTrade false form signal action apiResult).error =
        some "You must log in to Zerodha to execute trades." := by
  constructor <;> rfl

/-- C2 counterexample: the claim that non-null signal levels are always
forwarded fails — a non-null stop loss equal to zero is falsy in the
JavaScript conditional, so the manually entered form level is sent
instead. -/
theorem signal_levels_claim_false : ¬ claimSignalLevelsForwarded := by
  intro h
  have hc :=
    (h ⟨"1h", 1, "MARKET", some 50, some 60, true⟩ ⟨some 0, some 10⟩ "BUY" rfl
      (by simp) (by simp)).1
  simp [tradeData, jsTruthyOptNum, optNumJS, List.lookup] at hc

/-- C2 amended: with useSignalLevels enabled, the submitted order carries
exactly the Signal levels whenever they are non-null and non-zero; with
useSignalLevels disabled, the manually entered form levels are sent. -/
theorem signal_levels_forwarded (form : TradeForm) (signal : SignalLevels)
    (action : String) :
    (form.useSignalLevels = true →
      ∀ sl tp : ℚ, signal.stop_loss = some sl → sl ≠ 0 →
        signal.take_profit = some tp → tp ≠ 0 →
        (tradeData form signal action).lookup "stop_loss" = some (.vNum sl) ∧
          (tradeData form signal action).lookup "take_profit" =
            some (.vNum tp)) ∧
      (form.useSignalLevels = false →
        (tradeData form signal action).lookup "stop_loss" =
            some (optNumJS form.stopLoss) ∧
          (tradeData form signal action).lookup "take_profit" =
            some (optNumJS form.takeProfit)) := by
  constructor
  · intro hu sl tp hsl hslz htp htpz
    simp [tradeData, List.lookup, hu, hsl, htp, jsTruthyOptNum, optNumJS,
      hslz, htpz]
  · intro hu
    simp [tradeData, List.lookup, hu]

/-- C2 witness: a concrete trade with useSignalLevels enabled and signal
levels 5 and 9 carries exactly those levels. -/
theorem signal_levels_forwarded_witness :
    (tradeData ⟨"1h", 1, "MARKET", none, none, true⟩ ⟨some 5, some 9⟩
        "BUY").lookup "stop_loss" = some (.vNum 5) ∧
      (tradeData ⟨"1h", 1, "MARKET", none, none, true⟩ ⟨some 5, some 9⟩
        "BUY").lookup "take_profit" = some (.vNum 9) :=
  (signal_levels_forwarded ⟨"1h", 1, "MARKET", none, none, true⟩
      ⟨some 5, some 9⟩ "BUY").1 rfl 5 9 rfl (by norm_num) rfl (by norm_num)

/-- C4 counterexample: no submitted trade request carries a
client_request_id field — the payload built by the Trading page has no such
key. -/
theorem client_request_id_claim_false : ¬ claimClientRequestIdCarried := by
  intro h
  have hc := h ⟨"1h", 1, "MARKET", none, none, true⟩ ⟨none, none⟩ "BUY"
  simp [tradeData, List.lookup] at hc

/-- C4 amended: the trade request carries no client_request_id (its field
list is exactly action, timeframe, quantity, order_type, stop_loss,
take_profit), and every logged-in invocation of `handleExecuteTrade`
issues a fresh brokerage call with that payload, so two identical
submissions issue two brokerage calls — the client performs no idempotent
deduplication. -/
theorem trade_request_not_keyed (form : TradeForm) (signal : SignalLevels)
    (action : String) (apiResult : Option String) :
    (tradeData form signal action).lookup "client_request_id" = none ∧
      (tradeData form signal action).map Prod.fst =
        ["action", "timeframe", "quantity", "order_type", "stop_loss",
          "take_profit"] ∧
      (handleExecuteTrade true form signal action apiResult).tradeCall =
        some (tradeData form signal action) := by
  refine ⟨by simp [tradeData, List.lookup], rfl, ?_⟩
  cases apiResult <;> rfl

/-- C6: the token exchange is never attempted without a request token — a
callback URL lacking the request_token parameter fails with an error banner
and no exchange call — and the exchange is attempted exactly when a
non-empty request token is present, carrying exactly that token. -/
theorem auth_exchange_iff_token (tok : Option String) (apiOk : Bool) :
    (tok = none →
      (handleAuth tok apiOk).exchangeCall = none ∧
        (handleAuth tok apiOk).error.isSome = true) ∧
      ((handleAuth tok apiOk).exchangeCall.isSome = true ↔
        ∃ t, tok = some t ∧ t ≠ "") ∧
      (∀ t, tok = some t → t ≠ "" →
        (handleAuth tok apiOk).exchangeCall = some t) := by
  cases tok with
  | none => simp [handleAuth]
  | some t =>
    by_cases ht : t = ""
    · subst ht
      simp [handleAuth]
    · cases apiOk <;> simp [handleAuth, ht]

/-- C6 witness: a callback URL with no request_token parameter yields no
exchange call and an error banner. -/
theorem auth_exchange_iff_token_witness :
    (handleAuth none true).exchangeCall = none ∧
      (handleAuth none true).error.isSome = true :=
  (auth_exchange_iff_token none true).1 rfl

/-- C5: the fused action is the majority among the non-neutral votes — BUY
exactly when the buy votes outnumber the sell votes, SELL exactly in the
opposite case, and HOLD exactly on a tie, including the concrete
two-buys-two-sells tie.  The fusion is a function of its vote input, hence
deterministic. -/
theorem fusion_majority_ties_hold :
    (∀ votes : List Vote,
      (fuseAction votes = "BUY" ↔ votes.count .sell < votes.count .buy) ∧
        (fuseAction votes = "SELL" ↔ votes.count .buy < votes.count .sell) ∧
        (fuseAction votes = "HOLD" ↔ votes.count .buy = votes.count .sell)) ∧
      fuseAction [.buy, .buy, .sell, .sell] = "HOLD" := by
  constructor
  · intro votes
    by_cases h1 : votes.count .sell < votes.count .buy
    · refine ⟨iff_of_true (by simp [fuseAction, h1]) h1, ?_, ?_⟩
      · exact iff_of_false (by simp [fuseAction, h1]) (by omega)
      · exact iff_of_false (by simp [fuseAction, h1]) (by omega)
    · by_cases h2 : votes.count .buy < votes.count .sell
      · refine ⟨?_, iff_of_true (by simp [fuseAction, h1, h2]) h2, ?_⟩
        · exact iff_of_false (by simp [fuseAction, h1, h2]) (by omega)
        · exact iff_of_false (by simp [fuseAction, h1, h2]) (by omega)
      · refine ⟨?_, ?_, iff_of_true (by simp [fuseAction, h1, h2]) (by omega)⟩
        · exact iff_of_false (by simp [fuseAction, h1, h2]) h1
        · exact iff_of_false (by simp [fuseAction, h1, h2]) h2
  · rfl

/-- C7: the four recognized timeframes validate as themselves, any other
value fails with InvalidTimeframe, and every timeframe literal the client
pages can emit is one of the four recognized ones. -/
theorem timeframes_recognized :
    (∀ tf, tf ∈ recognizedTimeframes → validateTimeframe tf = .ok tf) ∧
      (∀ tf, tf ∉ recognizedTimeframes →
        validateTimeframe tf = .invalidTimeframe) ∧
      (∀ tf, tf ∈ clientEmittableTimeframes → tf ∈ recognizedTimeframes) := by
  refine ⟨fun tf h => ?_, fun tf h => ?_, fun tf h => ?_⟩
  · simp [validateTimeframe, h]
  · simp [validateTimeframe, h]
  · simp only [clientEmittableTimeframes, signalsPageTimeframes,
      tradingTimeframeOptions, timeframeButtonArgs, defaultTimeframe,
      List.mem_append, List.mem_cons, List.mem_singleton,
      List.not_mem_nil] at h
    simp only [recognizedTimeframes, List.mem_cons, List.not_mem_nil]
    tauto

/-- C7 witness: 1h validates, 2h fails with InvalidTimeframe. -/
theorem timeframes_recognized_witness :
    validateTimeframe "1h" = .ok "1h" ∧
      validateTimeframe "2h" = .invalidTimeframe :=
  ⟨timeframes_recognized.1 "1h" (by decide),
   timeframes_recognized.2.1 "2h" (by decide)⟩

/-- C3: the displayed prediction accuracy metrics are not a deterministic
function of the fetched responses — with the prediction response fixed and
non-empty, two renders whose `Math.random()` streams differ (all zeros
versus all one-halves) display different metrics. -/
theorem accuracy_depends_on_random :
    fetchDataAccuracy 5 (fun _ => 0) none ≠
      fetchDataAccuracy 5 (fun _ => 1 / 2) none := by
  norm_num [fetchDataAccuracy, toFixed2, AccuracyMetrics.mk.injEq]

/-- Helper: strict string equality holds exactly on the matching string
value. -/
theorem jsIsStr_iff (v : JSValue) (s : String) :
    jsIsStr v s = true ↔ v = .vStr s := by
  cases v <;> simp [jsIsStr]

/-- Helper: the truthiness guard of `getSignalClass` never changes the
outcome — the class only depends on the two strict string comparisons. -/
theorem getSignalClass_eq (action : JSValue) :
    getSignalClass action =
      if jsIsStr action "BUY" then "buy-signal"
      else if jsIsStr action "SELL" then "sell-signal"
      else "hold-signal" := by
  cases action with
  | vNull => simp [getSignalClass, jsIsStr, jsTruthy]
  | vUndefined => simp [getSignalClass, jsIsStr, jsTruthy]
  | vBool b => cases b <;> simp [getSignalClass, jsIsStr, jsTruthy]
  | vNum q => by_cases h : q = 0 <;> simp [getSignalClass, jsIsStr, jsTruthy, h]
  | vStr s => by_cases h : s = "" <;> simp [getSignalClass, jsIsStr, jsTruthy, h]
  | vObj fs => simp [getSignalClass, jsIsStr, jsTruthy]

/-- Helper: the analogue of `getSignalClass_eq` for the indicator dot. -/
theorem getSignalIndicator_eq (action : JSValue) :
    getSignalIndicator action =
      if jsIsStr action "BUY" then "buy"
      else if jsIsStr action "SELL" then "sell"
      else "hold" := by
  cases action with
  | vNull => simp [getSignalIndicator, jsIsStr, jsTruthy]
  | vUndefined => simp [getSignalIndicator, jsIsStr, jsTruthy]
  | vBool b => cases b <;> simp [getSignalIndicator, jsIsStr, jsTruthy]
  | vNum q => by_cases h : q = 0 <;> simp [getSignalIndicator, jsIsStr, jsTruthy, h]
  | vStr s => by_cases h : s = "" <;> simp [getSignalIndicator, jsIsStr, jsTruthy, h]
  | vObj fs => simp [getSignalIndicator, jsIsStr, jsTruthy]

/-- C9: the action classification is total and deterministic — buy styling
and indicator exactly on the string BUY, sell exactly on the string SELL,
hold styling in every other case, and a missing (falsy) action is displayed
as the text HOLD by the logical-or fallback. -/
theorem signal_action_classification (action : JSValue) :
    (getSignalClass action = "buy-signal" ↔ action = .vStr "BUY") ∧
      (getSignalClass action = "sell-signal" ↔ action = .vStr "SELL") ∧
      (action ≠ .vStr "BUY" → action ≠ .vStr "SELL" →
        getSignalClass action = "hold-signal") ∧
      (getSignalIndicator action = "buy" ↔ action = .vStr "BUY") ∧
      (getSignalIndicator action = "sell" ↔ action = .vStr "SELL") ∧
      (jsTruthy action = false → jsOr action (.vStr "HOLD") = .vStr "HOLD") := by
  have hb := jsIsStr_iff action "BUY"
  have hs := jsIsStr_iff action "SELL"
  rw [getSignalClass_eq, getSignalIndicator_eq]
  cases hcb : jsIsStr action "BUY" with
  | true =>
    have hab : action = .vStr "BUY" := hb.mp hcb
    subst hab
    simp [jsIsStr, jsOr, jsTruthy]
  | false =>
    have hb' : action ≠ .vStr "BUY" := fun h => by
      rw [h] at hcb
      simp [jsIsStr] at hcb
    cases hcs : jsIsStr action "SELL" with
    | true =>
      have has : action = .vStr "SELL" := hs.mp hcs
      subst has
      simp [jsIsStr, jsOr, jsTruthy]
    | false =>
      have hs' : action ≠ .vStr "SELL" := fun h => by
        rw [h] at hcs
        simp [jsIsStr] at hcs
      refine ⟨?_, ?_, fun _ _ => ?_, ?_, ?_, fun h => by simp [jsOr, h]⟩ <;>
        simp [hcb, hcs, hb', hs']

/-- C9 witness: a signal with no action gets hold styling and is displayed
as HOLD. -/
theorem signal_action_classification_witness :
    getSignalClass .vUndefined = "hold-signal" ∧
      jsOr .vUndefined (.vStr "HOLD") = .vStr "HOLD" :=
  ⟨(signal_action_classification .vUndefined).2.2.1 (by simp) (by simp),
   (signal_action_classification .vUndefined).2.2.2.2.2 rfl⟩

/-- C8 counterexample: the claim that carrying an error field forces the
fallback fails — a signal object whose error field holds the empty string
carries the field, yet the guard treats the empty string as falsy and the
full card is rendered. -/
theorem no_data_fallback_claim_false : ¬ claimNoDataFallback := by
  intro h
  have hc := (h (.vObj [("error", .vStr ""), ("action", .vStr "BUY")])).2
    (Or.inr (Or.inr (Or.inl (by decide))))
  exact absurd hc (by decide)

/-- C8 amended: the no-data fallback is rendered exactly when the signal
input is not an object (null and undefined included), has a truthy error
field (in particular a non-empty error message), or has no keys; every
other input renders the full card. -/
theorem no_data_fallback_iff (v : JSValue) :
    hasValidData v = false ↔
      (isObjectValue v = false ∨ jsTruthy (getField v "error") = true ∨
        objKeys v = []) := by
  cases v with
  | vNull => simp [hasValidData, isObjectValue, jsTruthy]
  | vUndefined => simp [hasValidData, isObjectValue, jsTruthy]
  | vBool b => cases b <;> simp [hasValidData, isObjectValue, jsTruthy, typeofIsObject]
  | vNum q => simp [hasValidData, isObjectValue, typeofIsObject]
  | vStr s => simp [hasValidData, isObjectValue, typeofIsObject]
  | vObj fs =>
    cases he : jsTruthy (getField (.vObj fs) "error") with
    | true => simp [hasValidData, isObjectValue, he]
    | false =>
      cases fs with
      | nil => simp [hasValidData, isObjectValue, objKeys, getField, jsTruthy]
      | cons p t =>
        simp [hasValidData, isObjectValue, objKeys, he, typeofIsObject,
          show jsTruthy (JSValue.vObj (p :: t)) = true from rfl]

/-- C10: whenever PriceChart draws a predicted-price dataset, its first
entries — one per actual close price, the indices of the historical bars —
are all null, and the dataset is padded with nulls so it is never shorter
than the label array; predicted points therefore never overlap the actual
price points. -/
theorem prediction_line_shape (priceData : Option (List (Option PriceItem)))
    (showPrediction : Bool)
    (predictionData : Option (List (Option PredItem)))
    (labels : List String) (actual : List ℚ) (predLine : List (Option ℚ))
    (h : priceChart priceData showPrediction predictionData =
      .chart labels actual (some predLine)) :
    (∀ i, i < actual.length → predLine.get? i = some none) ∧
      labels.length ≤ predLine.length := by
  match priceData with
  | none => simp [priceChart] at h
  | some pd =>
    simp only [priceChart] at h
    split at h
    · exact absurd h (by simp)
    · split at h
      · exact absurd h (by simp)
      · split at h
        · injection h with h1 h2 h3
          injection h3 with h3
          subst h1
          subst h2
          subst h3
          constructor
          · intro i hi
            rw [List.append_assoc, List.get?_eq_getElem?,
              List.getElem?_append_left (by simpa using hi)]
            simp [List.getElem?_replicate, hi]
          · simp only [List.length_append, List.length_replicate,
              List.length_map]
            omega
        · exact absurd h (by simp)

/-- C10 witness: for two bars with closes 100 and 101 and one prediction
102, the chart draws labels of length three, and the predicted dataset is
null at both historical indices and as long as the labels. -/
theorem prediction_line_shape_witness :
    (∀ i, i < ([100, 101] : List ℚ).length →
      ([none, none, some 102] : List (Option ℚ)).get? i = some none) ∧
      (["t1", "t2", "t3"] : List String).length ≤
        ([none, none, some 102] : List (Option ℚ)).length :=
  prediction_line_shape
    (some [some ⟨some "t1", some 100⟩, some ⟨some "t2", some 101⟩]) true
    (some [some ⟨some "t3", some 102⟩]) ["t1", "t2", "t3"] [100, 101]
    [none, none, some 102] rfl
